import Mathlib

/-!
Verification development for the order pricing & renewal engine of the
mavrykbot repository (Python).  Python strings are modelled as `List Char`,
Python `int` as `Int`/`Nat`, `decimal.Decimal` as `ℚ`, and `datetime` values
as an integer number of seconds (dates parsed by `_parse_date` are midnights,
i.e. multiples of 86400 seconds; `timedelta.days` is floor division by 86400).
Date strings stored in the database are abstracted to their parsed day number
(`Option Int`, `none` = unparseable): every format `run_renewal` writes
(`%Y/%m/%d`) is among the formats `_parse_date` accepts, so the string
round-trip is the identity on day numbers.  Database access is modelled as
functions returning `Except Unit _`; an `Except.error` models a raised
exception (`psycopg2` errors reaching the caller of `db.fetch_one`).
-/

deriving instance DecidableEq for Except

/-- Python `str` modelled as a list of characters. -/
abbrev Str := List Char

/-- Python `str.upper` (ASCII view). -/
def strUpper (s : Str) : Str := s.map Char.toUpper

/-- Python `str.lower` (ASCII view). -/
def strLower (s : Str) : Str := s.map Char.toLower

/-- Python `s.startswith(pat)`. -/
def pyStartsWith (s pat : Str) : Bool :=
  match pat, s with
  | [], _ => true
  | _ :: _, [] => false
  | p :: ps, c :: cs => p = c && pyStartsWith cs ps

/-- Python whitespace class used by `str.strip` and the regex class `\s`
(ASCII fragment). -/
def isPySpace (c : Char) : Bool :=
  c = ' ' || c = '\t' || c = '\n' || c = '\r' || c = '\x0b' || c = '\x0c'

/-- Regex class `\w` (ASCII fragment: letters, digits, underscore). -/
def isWordChar (c : Char) : Bool := c.isAlphanum || c = '_'

/-- Split a string into its longest prefix of characters satisfying `p` and
the remaining suffix (the way a greedy regex class `X*` consumes input). -/
def takeWhileSplit (p : Char → Bool) : Str → Str × Str
  | [] => ([], [])
  | c :: cs =>
    if p c then
      let r := takeWhileSplit p cs
      (c :: r.1, r.2)
    else ([], c :: cs)

theorem takeWhileSplit_snd_length_le (p : Char → Bool) (s : Str) :
    (takeWhileSplit p s).2.length ≤ s.length := by
  induction s with
  | nil => simp [takeWhileSplit]
  | cons c cs ih =>
    by_cases h : p c = true
    · simpa [takeWhileSplit, h] using Nat.le_succ_of_le ih
    · simp [takeWhileSplit, h]

theorem takeWhileSplit_nil_of_not (p : Char → Bool) (s : Str)
    (h : (takeWhileSplit p s).1 = []) : (takeWhileSplit p s).2 = s := by
  cases s with
  | nil => simp [takeWhileSplit]
  | cons c cs =>
    by_cases hc : p c = true
    · exfalso
      simp [takeWhileSplit, hc] at h
    · simp [takeWhileSplit, hc]

/-- Python `int` of a non-empty digit string. -/
def digitsToNat (ds : Str) : Nat :=
  ds.foldl (fun n c => n * 10 + (c.toNat - '0'.toNat)) 0

/-- Python `str.strip()` (whitespace from both ends). -/
def pyStrip (s : Str) : Str :=
  ((s.dropWhile isPySpace).reverse.dropWhile isPySpace).reverse

/-- `_round_thousand` from `add_order.py`: round a positive amount UP to the
nearest 1000; non-positive amounts give 0. -/
def round_thousand (value : Int) : Int :=
  if value ≤ 0 then 0 else (Int.fdiv (value + 999) 1000) * 1000

/-- `_round_up_to_thousand` from `update_order.py` (same algorithm as
`_round_thousand` in `add_order.py`). -/
def round_up_to_thousand (value : Int) : Int :=
  if value ≤ 0 then 0 else (Int.fdiv (value + 999) 1000) * 1000

/-- The final rounding step of `_calc_gia_ban` in `renewal_logic.py`:
`int(((int(gia_ban) + 999) // 1000) * 1000)` (round up, no positivity
guard). -/
def round_up_calc (value : Int) : Int := (Int.fdiv (value + 999) 1000) * 1000

/-- `_round_to_thousands` from `renewal_logic.py`: round to the NEAREST
multiple of 1000, remainders of at least 500 rounding up. -/
def round_to_thousands (value : Int) : Int :=
  if value = 0 then 0
  else
    let remainder := value % 1000
    if remainder = 0 then value
    else if remainder ≥ 500 then value + (1000 - remainder) else value - remainder

/-- Truncation toward zero, Python `int(Decimal(...))`. -/
def pyTrunc (q : ℚ) : Int := if 0 ≤ q then ⌊q⌋ else -⌊-q⌋

/-- `chuan_hoa_gia` from `core/utils.py` (second component of the returned
pair: the normalized integer price).  Lower-case and strip, look for a `k`
and a `.` in the text, keep only digits; no digits gives 0; a `k` multiplies
by 1000; a bare value below 5000 with no separator is also multiplied by
1000. -/
def chuan_hoa_gia (text : Str) : Nat :=
  let s := strLower (pyStrip text)
  let is_thousand_k := s.contains 'k'
  let has_separator := s.contains '.'
  let digits := s.filter Char.isDigit
  if digits.isEmpty then 0
  else
    let number := digitsToNat digits
    if is_thousand_k then number * 1000
    else if ¬is_thousand_k ∧ ¬has_separator ∧ number < 5000 then number * 1000
    else number

/-- Matcher for the substitution pattern of `normalize_product_duration`
(`core/utils.py`): at the head of `s`, greedily match `-+\s*(\d+)\s*m\b`
case-insensitively; on success return the digit group and the suffix after
the matched `m`. -/
def matchDurSub (s : Str) : Option (Str × Str) :=
  let d := takeWhileSplit (fun c => c = '-') s
  if d.1.isEmpty then none
  else
    let w1 := takeWhileSplit isPySpace d.2
    let dig := takeWhileSplit Char.isDigit w1.2
    if dig.1.isEmpty then none
    else
      let w2 := takeWhileSplit isPySpace dig.2
      match w2.2 with
      | [] => none
      | c :: rest =>
        if (c = 'm' || c = 'M')
            && (match rest with | [] => true | r :: _ => !isWordChar r) then
          some (dig.1, rest)
        else none

theorem matchDurSub_rest_lt (s : Str) (dr : Str × Str)
    (h : matchDurSub s = some dr) : dr.2.length < s.length := by
  simp only [matchDurSub] at h
  split at h
  · exact absurd h (by simp)
  · split at h
    · exact absurd h (by simp)
    · split at h
      · exact absurd h (by simp)
      · rename_i heq
        split at h
        · injection h with h'
          subst h'
          have h1 : (takeWhileSplit isPySpace
              (takeWhileSplit Char.isDigit
                (takeWhileSplit isPySpace
                  (takeWhileSplit (fun c => c = '-') s).2).2).2).2.length ≤ s.length := by
            calc (takeWhileSplit isPySpace
                (takeWhileSplit Char.isDigit
                  (takeWhileSplit isPySpace
                    (takeWhileSplit (fun c => c = '-') s).2).2).2).2.length
                ≤ (takeWhileSplit Char.isDigit
                    (takeWhileSplit isPySpace
                      (takeWhileSplit (fun c => c = '-') s).2).2).2.length :=
                  takeWhileSplit_snd_length_le _ _
              _ ≤ (takeWhileSplit isPySpace
                    (takeWhileSplit (fun c => c = '-') s).2).2.length :=
                  takeWhileSplit_snd_length_le _ _
              _ ≤ (takeWhileSplit (fun c => c = '-') s).2.length :=
                  takeWhileSplit_snd_length_le _ _
              _ ≤ s.length := takeWhileSplit_snd_length_le _ _
          rw [heq] at h1
          simpa using Nat.lt_of_lt_of_le (Nat.lt_succ_self _) h1
        · exact absurd h (by simp)

/-- The replacement loop of `re.sub(r"-+\s*(\d+)\s*m\b", r"--\1m", s, re.I)`
in `normalize_product_duration`: scan left to right, replacing each
non-overlapping match and continuing after it.  Structural recursion on a
fuel argument so the definition reduces in the kernel; by
`matchDurSub_rest_lt` every step strictly shrinks the string, so fuel
initialized to the string length (see `subDurLoop`) is never exhausted. -/
def subDurFuel : Nat → Str → Str
  | _, [] => []
  | 0, s => s
  | fuel + 1, c :: cs =>
    match matchDurSub (c :: cs) with
    | some dr => '-' :: '-' :: (dr.1 ++ 'm' :: subDurFuel fuel dr.2)
    | none => c :: subDurFuel fuel cs

/-- Run the substitution loop with sufficient fuel. -/
def subDurLoop (s : Str) : Str := subDurFuel s.length s

/-- `normalize_product_duration` from `core/utils.py`: map the Unicode dash
block U+2010..U+2015 to ASCII `-`, then canonicalize every `-+\s*(\d+)\s*m\b`
run to `--<digits>m`. -/
def normalize_product_duration (text : Str) : Str :=
  subDurLoop (text.map (fun c => if '‐' ≤ c ∧ c ≤ '―' then '-' else c))

/-- Head matcher for the renewal engine's duration regex
`--\s*(\d+)\s*m` (case-insensitive, NO word boundary),
`renewal_logic.py` line 235. -/
def matchDurSearch (s : Str) : Option Str :=
  match s with
  | '-' :: '-' :: r1 =>
    let w1 := takeWhileSplit isPySpace r1
    let dig := takeWhileSplit Char.isDigit w1.2
    if dig.1.isEmpty then none
    else
      let w2 := takeWhileSplit isPySpace dig.2
      match w2.2 with
      | c :: _ => if c = 'm' || c = 'M' then some dig.1 else none
      | [] => none
  | _ => none

/-- `re.search(r"--\s*(\d+)\s*m", s, re.I)` as used by `run_renewal`:
leftmost match, returning the month count of group 1. -/
def search_duration : Str → Option Nat
  | [] => none
  | c :: cs =>
    match matchDurSearch (c :: cs) with
    | some dig => some (digitsToNat dig)
    | none => search_duration cs

/-- Modelled from the spec: head matcher for the duration pattern AS THE
CLAIM STATES IT — literal `--`, digits, optional whitespace, `m`
case-insensitive, AT A WORD BOUNDARY.  Used only to compare the claim's
pattern with the code's `matchDurSearch`, which has no boundary. -/
def specMatchDur (s : Str) : Option Str :=
  match s with
  | '-' :: '-' :: r1 =>
    let w1 := takeWhileSplit isPySpace r1
    let dig := takeWhileSplit Char.isDigit w1.2
    if dig.1.isEmpty then none
    else
      let w2 := takeWhileSplit isPySpace dig.2
      match w2.2 with
      | c :: rest =>
        if (c = 'm' || c = 'M')
            && (match rest with | [] => true | r :: _ => !isWordChar r) then
          some dig.1
        else none
      | [] => none
  | _ => none

/-- Modelled from the spec: leftmost search for the claim's word-boundary
variant of the duration pattern. -/
def spec_search_duration : Str → Option Nat
  | [] => none
  | c :: cs =>
    match specMatchDur (c :: cs) with
    | some dig => some (digitsToNat dig)
    | none => spec_search_duration cs

/-- Head matcher for `re.search(r"--(\d+)m", ma_sp.lower())` from
`extract_days_from_ma_sp` in `add_order.py` (input already lower-cased, no
whitespace allowed, no boundary). -/
def matchDurSimple (s : Str) : Option Str :=
  match s with
  | '-' :: '-' :: r1 =>
    let dig := takeWhileSplit Char.isDigit r1
    if dig.1.isEmpty then none
    else
      match dig.2 with
      | 'm' :: _ => some dig.1
      | _ => none
  | _ => none

/-- Leftmost search for `matchDurSimple`. -/
def searchDurSimple : Str → Option Nat
  | [] => none
  | c :: cs =>
    match matchDurSimple (c :: cs) with
    | some dig => some (digitsToNat dig)
    | none => searchDurSimple cs

/-- `extract_days_from_ma_sp` from `add_order.py`: months from the product
code, months=12 mapping to 365 days and otherwise months*30; 0 when the
pattern is absent (soft default). -/
def extract_days_from_ma_sp (ma_sp : Str) : Nat :=
  match searchDurSimple (strLower ma_sp) with
  | some thang => if thang = 12 then 365 else thang * 30
  | none => 0

/-- Head matcher for `re.findall(r"MAV\w{5,}", text)` in
`payment_webhook.py`: literal `MAV` (case-sensitive) followed greedily by at
least five word characters; returns the whole match and the suffix after
it. -/
def matchMav (s : Str) : Option (Str × Str) :=
  match s with
  | 'M' :: 'A' :: 'V' :: r1 =>
    let w := takeWhileSplit isWordChar r1
    if w.1.length ≥ 5 then some ('M' :: 'A' :: 'V' :: w.1, w.2) else none
  | _ => none

/-- The scan loop of `re.findall(r"MAV\w{5,}", text)`: leftmost,
non-overlapping matches.  Fuel-based structural recursion; a successful
match consumes at least eight characters, so fuel initialized to the string
length is never exhausted. -/
def findallMavFuel : Nat → Str → List Str
  | _, [] => []
  | 0, _ => []
  | fuel + 1, c :: cs =>
    match matchMav (c :: cs) with
    | some mr => mr.1 :: findallMavFuel fuel mr.2
    | none => findallMavFuel fuel cs

/-- All `MAV\w{5,}` matches of a text. -/
def findallMav (s : Str) : List Str := findallMavFuel s.length s

/-- Lexicographic comparison of Python strings by code point (`<` on
`str`). -/
def strLt : Str → Str → Bool
  | _, [] => false
  | [], _ :: _ => true
  | a :: as, b :: bs => if a = b then strLt as bs else decide (a < b)

/-- Insert into a sorted duplicate-free list, keeping it sorted and
duplicate-free: the composition `sorted(set(...))` used by
`extract_ma_don`. -/
def insSortedUnique (x : Str) : List Str → List Str
  | [] => [x]
  | y :: ys =>
    if x = y then y :: ys
    else if strLt x y then x :: y :: ys
    else y :: insSortedUnique x ys

/-- `extract_ma_don` from `payment_webhook.py`:
`sorted({m.upper() for m in re.findall(r"MAV\w{5,}", text)})`. -/
def extract_ma_don (text : Str) : List Str :=
  ((findallMav text).map strUpper).foldl (fun acc m => insSortedUnique m acc) []

/-- A product row fetched by `_get_product_record`: id and the two
multipliers (SQL NULL modelled as `none`). -/
structure ProductRecord where
  id : Nat
  pct_ctv : Option ℚ
  pct_khach : Option ℚ
deriving DecidableEq, Repr

/-- The stored import-price column: free text, or the SQL integer
`run_renewal` writes back.  `chuan_hoa_gia` receives `str(value)`. -/
inductive PriceVal where
  | txt (s : Str)
  | num (n : Int)
deriving DecidableEq, Repr

/-- `chuan_hoa_gia(str(value))` for a stored import-price cell: for an
integer cell the decimal digits of `|n|` contain no `k` and no `.`, so only
the below-5000 rule can fire. -/
def chuanHoaGiaVal : PriceVal → Nat
  | .txt s => chuan_hoa_gia s
  | .num n => if n.natAbs < 5000 then n.natAbs * 1000 else n.natAbs

/-- The columns of `order_list` fetched by `_fetch_order`, in SELECT order.
Date strings are abstracted to parsed day numbers (`none` = a value
`_parse_date` rejects). -/
structure OrderRow where
  san_pham : Str
  het_han : Option Int
  nguon : Option Str
  gia_nhap : PriceVal
  gia_ban : Int
  thong_tin : Str
  slot : Str
  ngay_dang_ki : Option Int
  tinh_trang : Str
  check_flag : Bool
deriving DecidableEq, Repr

/-- The database as `renewal_logic.py` sees it.  Each query function may
return `Except.error ()`, modelling a raised database exception;
`update_err` makes the single UPDATE of `_update_order` raise. -/
structure Db where
  order : Str → Except Unit (Option OrderRow)
  product_record : Str → Except Unit (Option ProductRecord)
  source_id : Str → Except Unit (Option Nat)
  source_price : Nat → Nat → Except Unit (Option Int)
  highest_price : Nat → Except Unit (Option ℚ)
  update_err : Bool

/-- `_get_source_id`: `None` for a missing or empty source name (Python
`if not source_name`), otherwise the id resolved by the query. -/
def get_source_id (db : Db) : Option Str → Except Unit (Option Nat)
  | none => .ok none
  | some s => if s.isEmpty then .ok none else db.source_id s

/-- `_get_source_price`: `None` unless both ids are present and truthy
(Python `if not (product_id and source_id)`). -/
def get_source_price (db : Db) (product_id src_id : Option Nat) :
    Except Unit (Option Int) :=
  match product_id, src_id with
  | some p, some s => if p = 0 || s = 0 then .ok none else db.source_price p s
  | _, _ => .ok none

/-- `_get_highest_price`: `None` for a missing or zero product id (Python
`if not product_id`). -/
def get_highest_price (db : Db) : Option Nat → Except Unit (Option ℚ)
  | none => .ok none
  | some p => if p = 0 then .ok none else db.highest_price p

/-- Lines 243-249 of `run_renewal`: the product id and multipliers, a stored
NULL multiplier defaulting to `Decimal("1.0")`, and both multipliers 1.0
when the product is unknown. -/
def resolveProduct : Option ProductRecord → Option Nat × ℚ × ℚ
  | some r => (some r.id, r.pct_ctv.getD 1, r.pct_khach.getD 1)
  | none => (none, 1, 1)

/-- The pre-rounding `Decimal` value computed by `_calc_gia_ban`
(`renewal_logic.py` lines 137-150): when the highest supply price is
positive, the collaborator tier (`MAVC`) multiplies it by `pct_ctv` and the
retail tier (`MAVL`) further by `pct_khach`; a promo code (`MAVK` after
upper-casing) then overrides everything with the import price.  The
`except` arm of the source is unreachable in the model because the
arithmetic is total. -/
def calc_gia_ban_raw (order_id : Str) (highest_price : Option ℚ)
    (pct_ctv pct_khach : ℚ) (gia_nhap : Int) : ℚ :=
  let ma := strUpper order_id
  let gia_ban : ℚ := gia_nhap
  let gia_ban :=
    match highest_price with
    | some h =>
      if 0 < h then
        if pyStartsWith ma "MAVC".toList then h * pct_ctv
        else if pyStartsWith ma "MAVL".toList then (h * pct_ctv) * pct_khach
        else gia_ban
      else gia_ban
    | none => gia_ban
  if pyStartsWith ma "MAVK".toList then (gia_nhap : ℚ) else gia_ban

/-- `_calc_gia_ban`: the pre-rounding value truncated to `int` and rounded
UP to the nearest 1000. -/
def calc_gia_ban (order_id : Str) (highest_price : Option ℚ)
    (pct_ctv pct_khach : ℚ) (gia_nhap : Int) : Int :=
  round_up_calc
    (pyTrunc (calc_gia_ban_raw order_id highest_price pct_ctv pct_khach gia_nhap))

/-- `tinh_ngay_het_han` from `renewal_logic.py`: flat day offset
`start + timedelta(days=num_days)`, with an unparseable start giving the
empty string (`none`). -/
def tinh_ngay_het_han (start : Option Int) (num_days : Int) : Option Int :=
  match start with
  | some s => some (s + num_days)
  | none => none

/-- `(het_han_dt - datetime.now()).days`: the difference in seconds floored
by 86400 (`timedelta.days` floors).  `het_han` is a parsed day number
(midnight), `now` the current time in seconds. -/
def so_ngay_con_lai (het_han : Int) (now : Int) : Int :=
  Int.fdiv (het_han * 86400 - now) 86400

/-- The `process_type` component of `run_renewal`'s result tuple
(`"renewal"`, `"skipped"`, `"error"`). -/
inductive RenewKind where
  | renewal
  | skipped
  | error
deriving DecidableEq, Repr

/-- The `updated_details` dict returned on a successful renewal. -/
structure RenewDetails where
  id_don_hang : Str
  san_pham : Str
  thong_tin_don : Str
  slot : Str
  ngay_dang_ky : Int
  het_han : Int
  nguon : Option Str
  gia_nhap : Int
  gia_ban : Int
  tinh_trang : Str
deriving DecidableEq, Repr

/-- `run_renewal`'s `(success, details, process_type)` tuple; `details` is
the structured record on success (the error and skip message strings are not
modelled). -/
structure RenewResult where
  success : Bool
  details : Option RenewDetails
  kind : RenewKind
deriving DecidableEq, Repr

/-- The parameter tuple of the single UPDATE statement issued by
`_update_order`. -/
structure UpdateParams where
  order_id : Str
  ngay_dang_ky : Int
  so_ngay : Nat
  ngay_het_han : Int
  gia_nhap : Int
  gia_ban : Int
  status : Str
  check_flag : Bool
deriving DecidableEq, Repr

/-- The unpaid payment-status label written by a renewal. -/
def unpaidStatus : Str := "Chưa Thanh Toán".toList

/-- `run_renewal` from `renewal_logic.py` (lines 197-299).  The returned
pair is the Python result tuple together with the UPDATE issued (`none`
when no write happened); `Except.error` is an exception escaping
`run_renewal` — in the source only the final UPDATE is guarded by
`try`/`except`, none of the price lookups are. -/
def run_renewal (db : Db) (now : Int) (order_id : Str) :
    Except Unit (RenewResult × Option UpdateParams) :=
  if order_id.isEmpty then .ok (⟨false, none, .error⟩, none)
  else
    match db.order order_id with
    | .error e => .error e
    | .ok none => .ok (⟨false, none, .error⟩, none)
    | .ok (some row) =>
      match row.het_han with
      | none => .ok (⟨false, none, .error⟩, none)
      | some het_han =>
        if so_ngay_con_lai het_han now > 4 then .ok (⟨false, none, .skipped⟩, none)
        else
          match search_duration (normalize_product_duration row.san_pham) with
          | none => .ok (⟨false, none, .error⟩, none)
          | some so_thang =>
            let so_ngay_gia_han : Nat := if so_thang = 12 then 365 else so_thang * 30
            match db.product_record row.san_pham with
            | .error e => .error e
            | .ok product_record =>
              let resolved := resolveProduct product_record
              match get_source_id db row.nguon with
              | .error e => .error e
              | .ok src_id =>
                match get_source_price db resolved.1 src_id with
                | .error e => .error e
                | .ok gia_nhap_source =>
                  let final_gia_nhap0 : Int :=
                    match gia_nhap_source with
                    | some p => p
                    | none => chuanHoaGiaVal row.gia_nhap
                  match get_highest_price db resolved.1 with
                  | .error e => .error e
                  | .ok highest_price =>
                    let final_gia_ban0 :=
                      calc_gia_ban order_id highest_price resolved.2.1 resolved.2.2
                        final_gia_nhap0
                    let final_gia_nhap := round_to_thousands final_gia_nhap0
                    let final_gia_ban := round_to_thousands final_gia_ban0
                    let ngay_bat_dau_moi := het_han + 1
                    let ngay_het_han_moi :=
                      (tinh_ngay_het_han (some ngay_bat_dau_moi) so_ngay_gia_han).getD
                        (ngay_bat_dau_moi + so_ngay_gia_han)
                    if db.update_err then .ok (⟨false, none, .error⟩, none)
                    else
                      .ok (⟨true,
                        some ⟨order_id, row.san_pham, row.thong_tin, row.slot,
                          ngay_bat_dau_moi, ngay_het_han_moi, row.nguon,
                          final_gia_nhap, final_gia_ban, unpaidStatus⟩, .renewal⟩,
                        some ⟨order_id, ngay_bat_dau_moi, so_ngay_gia_han,
                          ngay_het_han_moi, final_gia_nhap, final_gia_ban,
                          unpaidStatus, false⟩)

/-- Effect of `_update_order`'s UPDATE on the stored row.  The duration
column it also sets is not in `_fetch_order`'s SELECT, hence not part of
`OrderRow`. -/
def applyRow (u : UpdateParams) (row : OrderRow) : OrderRow :=
  { row with
    ngay_dang_ki := some u.ngay_dang_ky
    het_han := some u.ngay_het_han
    gia_nhap := .num u.gia_nhap
    gia_ban := u.gia_ban
    tinh_trang := u.status
    check_flag := u.check_flag }

/-- The database state after executing an UPDATE. -/
def Db.applyUpdate (db : Db) (u : UpdateParams) : Db :=
  { db with
    order := fun oid =>
      if oid = u.order_id then (db.order oid).map (Option.map (applyRow u))
      else db.order oid }

/-- The two lookups of `chon_nguon_handler`'s pricing block in
`add_order.py`, both performed INSIDE its `try` block: the MAX supply price
for the product and the multipliers of its `Product_Price` row. -/
structure AddDb where
  highest_price : Except Unit (Option ℚ)
  percentages : Except Unit (Option (Option ℚ × Option ℚ))

/-- The sale-price computation of `chon_nguon_handler` (`add_order.py`
lines 469-534): default to the import price; inside `try`, fetch the
highest supply price (NULL → 0) and, when it is positive and a multiplier
row exists, apply the `MAVC`/`MAVL` tier (prefix matched case-sensitively
here); a `MAVK` code then forces the import price; ANY exception falls back
to the import price.  The result is truncated and rounded up to the nearest
1000. -/
def chon_nguon_gia_ban (db : AddDb) (ma_don : Str) (gia_nhap : Int) : Int :=
  let attempt : Except Unit ℚ :=
    match db.highest_price with
    | .error e => .error e
    | .ok hp =>
      let highest : ℚ := hp.getD 0
      let base : ℚ := gia_nhap
      let step : Except Unit ℚ :=
        if 0 < highest then
          match db.percentages with
          | .error e => .error e
          | .ok none => .ok base
          | .ok (some (c0, k0)) =>
            let pct_ctv := c0.getD 1
            let pct_khach := k0.getD 1
            if pyStartsWith ma_don "MAVC".toList then .ok (highest * pct_ctv)
            else if pyStartsWith ma_don "MAVL".toList then
              .ok ((highest * pct_ctv) * pct_khach)
            else .ok base
        else .ok base
      match step with
      | .error e => .error e
      | .ok gb => .ok (if pyStartsWith ma_don "MAVK".toList then (gia_nhap : ℚ) else gb)
  let gia_ban : ℚ :=
    match attempt with
    | .ok v => v
    | .error _ => (gia_nhap : ℚ)
  round_thousand (pyTrunc gia_ban)

/-- The price-recompute block of `extend_order` (`update_order.py` lines
604-628): with a product profile, multipliers default via `or 1` (so NULL
and 0 both become 1); a positive supplier price replaces the import price;
the tier branches — including the `MAVK` one — run only when the highest
supply price is positive; finally both prices are rounded up to the nearest
1000. -/
def extend_new_prices (profile : Option ProductRecord) (nguon_price : Option Int)
    (highest_price : Int) (ma_don : Str) (gia_nhap_old gia_ban_old : Int) :
    Int × Int :=
  match profile with
  | none => (round_up_to_thousand gia_nhap_old, round_up_to_thousand gia_ban_old)
  | some r =>
    let pct_ctv : ℚ := match r.pct_ctv with
      | some x => if x = 0 then 1 else x
      | none => 1
    let pct_khach : ℚ := match r.pct_khach with
      | some x => if x = 0 then 1 else x
      | none => 1
    let gia_nhap_moi := match nguon_price with
      | some p => if 0 < p then p else gia_nhap_old
      | none => gia_nhap_old
    let gia_ban_moi :=
      if 0 < highest_price then
        let high : ℚ := highest_price
        let ma := strUpper ma_don
        if pyStartsWith ma "MAVC".toList then pyTrunc (high * pct_ctv)
        else if pyStartsWith ma "MAVL".toList then pyTrunc ((high * pct_ctv) * pct_khach)
        else if pyStartsWith ma "MAVK".toList then gia_nhap_moi
        else gia_ban_old
      else gia_ban_old
    (round_up_to_thousand gia_nhap_moi, round_up_to_thousand gia_ban_moi)

/-- Closed form of `run_renewal` on the success path, shared by the claim
theorems below: with an eligible, parseable order and no raised exception,
the call issues exactly one UPDATE whose fields are computed as in lines
234-299 of `renewal_logic.py`. -/
theorem run_renewal_success (db : Db) (now : Int) (oid : Str) (row : OrderRow)
    (het_han : Int) (so_thang : Nat) (pr : Option ProductRecord)
    (sid : Option Nat) (sp : Option Int) (hp : Option ℚ)
    (hne : oid.isEmpty = false)
    (hord : db.order oid = .ok (some row))
    (hhh : row.het_han = some het_han)
    (helig : ¬ so_ngay_con_lai het_han now > 4)
    (hdur : search_duration (normalize_product_duration row.san_pham) = some so_thang)
    (hpr : db.product_record row.san_pham = .ok pr)
    (hsid : get_source_id db row.nguon = .ok sid)
    (hsp : get_source_price db (resolveProduct pr).1 sid = .ok sp)
    (hhp : get_highest_price db (resolveProduct pr).1 = .ok hp)
    (hup : db.update_err = false) :
    run_renewal db now oid =
      .ok (⟨true, some ⟨oid, row.san_pham, row.thong_tin, row.slot, het_han + 1,
          het_han + 1 + (if so_thang = 12 then 365 else so_thang * 30 : Nat),
          row.nguon,
          round_to_thousands
            (match sp with | some p => p | none => chuanHoaGiaVal row.gia_nhap),
          round_to_thousands
            (calc_gia_ban oid hp (resolveProduct pr).2.1 (resolveProduct pr).2.2
              (match sp with | some p => p | none => chuanHoaGiaVal row.gia_nhap)),
          unpaidStatus⟩, .renewal⟩,
        some ⟨oid, het_han + 1, (if so_thang = 12 then 365 else so_thang * 30),
          het_han + 1 + (if so_thang = 12 then 365 else so_thang * 30 : Nat),
          round_to_thousands
            (match sp with | some p => p | none => chuanHoaGiaVal row.gia_nhap),
          round_to_thousands
            (calc_gia_ban oid hp (resolveProduct pr).2.1 (resolveProduct pr).2.2
              (match sp with | some p => p | none => chuanHoaGiaVal row.gia_nhap)),
          unpaidStatus, false⟩) := by
  simp only [run_renewal, hne, Bool.false_eq_true, if_false, hord, hhh, helig, hdur,
    hpr, hsid, hsp, hhp, hup, tinh_ngay_het_han, Option.getD_some]
  cases sp with
  | none => simp [add_assoc]
  | some p => simp [add_assoc]

/-- `pyStartsWith` agrees with the list prefix relation. -/
theorem pyStartsWith_iff (pat s : Str) : pyStartsWith s pat = true ↔ pat <+: s := by
  induction pat generalizing s with
  | nil => simp [pyStartsWith]
  | cons p ps ih =>
    cases s with
    | nil => simp [pyStartsWith]
    | cons c cs => simp [pyStartsWith, List.cons_prefix_cons, ih]

/-- Two different patterns of the same length cannot both be prefixes of a
string (used to show the `MAVC`/`MAVL`/`MAVK` branches are mutually
exclusive). -/
theorem pyStartsWith_excl (a b s : Str) (hlen : a.length = b.length) (hab : a ≠ b)
    (h1 : pyStartsWith s a = true) : pyStartsWith s b = false := by
  by_contra hb
  rw [Bool.not_eq_false, pyStartsWith_iff] at hb
  rw [pyStartsWith_iff] at h1
  rcases List.prefix_or_prefix_of_prefix h1 hb with h | h
  · exact hab (h.eq_of_length hlen)
  · exact hab ((h.eq_of_length hlen.symm).symm)

/-- Truncation of an integer-valued rational is that integer. -/
theorem pyTrunc_intCast (n : Int) : pyTrunc (n : ℚ) = n := by
  unfold pyTrunc
  by_cases h : (0 : ℚ) ≤ (n : ℚ)
  · simp [h]
  · rw [if_neg h, ← Int.cast_neg, Int.floor_intCast, Int.neg_neg]

/-- Closed form of `run_renewal` on the skip path: an order more than 4
days (floor semantics) from expiry is skipped before any further lookup or
write. -/
theorem run_renewal_skip (db : Db) (now : Int) (oid : Str) (row : OrderRow)
    (het_han : Int)
    (hne : oid.isEmpty = false)
    (hord : db.order oid = .ok (some row))
    (hhh : row.het_han = some het_han)
    (helig : so_ngay_con_lai het_han now > 4) :
    run_renewal db now oid = .ok (⟨false, none, .skipped⟩, none) := by
  simp [run_renewal, hne, hord, hhh, helig]

/-- Fetching an order after its own UPDATE returns the updated row. -/
theorem applyUpdate_order (db : Db) (u : UpdateParams) (row : OrderRow)
    (hord : db.order u.order_id = .ok (some row)) :
    (db.applyUpdate u).order u.order_id = .ok (some (applyRow u row)) := by
  simp [Db.applyUpdate, hord, Except.map]

/-- After an UPDATE whose new expiry is more than 4 days out, a repeated
`run_renewal` call skips. -/
theorem run_renewal_after_update (db : Db) (now : Int) (u : UpdateParams)
    (row : OrderRow)
    (hne : u.order_id.isEmpty = false)
    (hord : db.order u.order_id = .ok (some row))
    (hpost : so_ngay_con_lai u.ngay_het_han now > 4) :
    run_renewal (db.applyUpdate u) now u.order_id =
      .ok (⟨false, none, .skipped⟩, none) :=
  run_renewal_skip _ now u.order_id (applyRow u row) u.ngay_het_han hne
    (applyUpdate_order db u row hord) rfl hpost

/-- Sample retail order used by witness theorems: a 1-month product, expiry
4 days after day 0, stored import price text `50000`, no product profile
and no supplier pricing. -/
def sOid : Str := "MAVL7X9K2P1".toList

/-- Sample order row for `sOid`. -/
def sRow : OrderRow :=
  { san_pham := "Netflix--1m".toList, het_han := some 4, nguon := none,
    gia_nhap := .txt "50000".toList, gia_ban := 0, thong_tin := [], slot := [],
    ngay_dang_ki := some 0, tinh_trang := [], check_flag := false }

/-- A database holding exactly one order and nothing else. -/
def mkDb (oid : Str) (row : OrderRow) : Db :=
  { order := fun s => if s = oid then .ok (some row) else .ok none
    product_record := fun _ => .ok none
    source_id := fun _ => .ok none
    source_price := fun _ _ => .ok none
    highest_price := fun _ => .ok none
    update_err := false }

/-- Sample database for `sOid`/`sRow`. -/
def sDb : Db := mkDb sOid sRow

/-- C1: for every order whose stored expiry date parses and is at most 4
days away, a successful renewal issues a single UPDATE that sets the new
registration date to the old expiry plus one day, the new expiry to that
new registration date plus the parsed duration in days (flat day offset),
the duration column to the parsed duration, the payment status to the
unpaid label, and the check flag to false. -/
theorem C1_renewal_update_fields (db : Db) (now : Int) (oid : Str) (row : OrderRow)
    (het_han : Int) (so_thang : Nat) (pr : Option ProductRecord)
    (sid : Option Nat) (sp : Option Int) (hp : Option ℚ)
    (hne : oid.isEmpty = false)
    (hord : db.order oid = .ok (some row))
    (hhh : row.het_han = some het_han)
    (helig : so_ngay_con_lai het_han now ≤ 4)
    (hdur : search_duration (normalize_product_duration row.san_pham) = some so_thang)
    (hpr : db.product_record row.san_pham = .ok pr)
    (hsid : get_source_id db row.nguon = .ok sid)
    (hsp : get_source_price db (resolveProduct pr).1 sid = .ok sp)
    (hhp : get_highest_price db (resolveProduct pr).1 = .ok hp)
    (hup : db.update_err = false) :
    ∃ gn gb det,
      run_renewal db now oid = .ok (⟨true, some det, .renewal⟩,
        some ⟨oid, het_han + 1, (if so_thang = 12 then 365 else so_thang * 30),
          het_han + 1 + (if so_thang = 12 then 365 else so_thang * 30 : Nat),
          gn, gb, unpaidStatus, false⟩) :=
  ⟨_, _, _, run_renewal_success db now oid row het_han so_thang pr sid sp hp
    hne hord hhh (by omega) hdur hpr hsid hsp hhp hup⟩

/-- Witness for C1: the sample order (expiry day 4, duration 1 month seen
at time 0) is renewed with registration day 5, expiry day 35, unpaid
status and cleared check flag. -/
theorem C1_witness :
    ∃ gn gb det,
      run_renewal sDb 0 sOid = .ok (⟨true, some det, .renewal⟩,
        some ⟨sOid, 5, 30, 35, gn, gb, unpaidStatus, false⟩) := by
  have h := C1_renewal_update_fields sDb 0 sOid sRow 4 1 none none none none
    (by decide) (by decide) (by decide) (by decide) (by decide)
    (by decide) (by decide) (by decide) (by decide) (by decide)
  simpa using h

/-- Long-expired variant of the sample order (expiry 60 days in the past),
refuting the unconditional idempotence claim. -/
def cRow : OrderRow := { sRow with het_han := some (-60) }

/-- Database holding the long-expired order. -/
def cDb : Db := mkDb sOid cRow

/-- The UPDATE issued by the first renewal of the long-expired order. -/
def cU1 : UpdateParams :=
  { order_id := sOid, ngay_dang_ky := -59, so_ngay := 30, ngay_het_han := -29,
    gia_nhap := 50000, gia_ban := 50000, status := unpaidStatus, check_flag := false }

/-- Counterexample to C2: on an order expired 60 days ago with a 30-day
duration, the first `run_renewal` call succeeds with kind renewal, moving
the expiry to 29 days in the past — still within the 4-day window — so the
immediately following second call performs ANOTHER renewal instead of
returning skipped. -/
theorem C2_counterexample :
    run_renewal cDb 0 sOid =
      .ok (⟨true, some ⟨sOid, cRow.san_pham, [], [], -59, -29, none, 50000, 50000,
        unpaidStatus⟩, .renewal⟩, some cU1) ∧
    run_renewal (cDb.applyUpdate cU1) 0 sOid =
      .ok (⟨true, some ⟨sOid, cRow.san_pham, [], [], -28, 2, none, 50000, 50000,
        unpaidStatus⟩, .renewal⟩,
        some ⟨sOid, -28, 30, 2, 50000, 50000, unpaidStatus, false⟩) := by
  constructor
  · decide
  · decide

/-- C2 amended: an immediately repeated `run_renewal` on the same order
returns `(false, _, skipped)` PROVIDED the first call's post-renewal expiry
(old expiry + 1 day + duration) is more than 4 days after the current time
— which holds for every order that was not already expired by more than
`duration - 3` days, but fails for longer-expired orders (see the
counterexample). -/
theorem C2_second_call_skips (db : Db) (now : Int) (oid : Str) (row : OrderRow)
    (het_han : Int) (so_thang : Nat) (pr : Option ProductRecord)
    (sid : Option Nat) (sp : Option Int) (hp : Option ℚ)
    (hne : oid.isEmpty = false)
    (hord : db.order oid = .ok (some row))
    (hhh : row.het_han = some het_han)
    (helig : so_ngay_con_lai het_han now ≤ 4)
    (hdur : search_duration (normalize_product_duration row.san_pham) = some so_thang)
    (hpr : db.product_record row.san_pham = .ok pr)
    (hsid : get_source_id db row.nguon = .ok sid)
    (hsp : get_source_price db (resolveProduct pr).1 sid = .ok sp)
    (hhp : get_highest_price db (resolveProduct pr).1 = .ok hp)
    (hup : db.update_err = false)
    (hpost : so_ngay_con_lai
      (het_han + 1 + (if so_thang = 12 then 365 else so_thang * 30 : Nat)) now > 4) :
    ∃ det u, run_renewal db now oid = .ok (⟨true, some det, .renewal⟩, some u) ∧
      run_renewal (db.applyUpdate u) now oid = .ok (⟨false, none, .skipped⟩, none) :=
  ⟨_, _, run_renewal_success db now oid row het_han so_thang pr sid sp hp
    hne hord hhh (by omega) hdur hpr hsid hsp hhp hup,
    run_renewal_after_update db now _ row hne hord hpost⟩

/-- Witness for C2 amended: the sample order (expiry 4 days out) renews
once and the immediate second call skips. -/
theorem C2_witness :
    ∃ det u, run_renewal sDb 0 sOid = .ok (⟨true, some det, .renewal⟩, some u) ∧
      run_renewal (sDb.applyUpdate u) 0 sOid = .ok (⟨false, none, .skipped⟩, none) :=
  C2_second_call_skips sDb 0 sOid sRow 4 1 none none none none
    (by decide) (by decide) (by decide) (by decide) (by decide)
    (by decide) (by decide) (by decide) (by decide) (by decide) (by decide)

/-- Variant of the sample order expiring 10 days out (the spec's skip
scenario). -/
def sRow10 : OrderRow := { sRow with het_han := some 10 }

/-- Database holding the 10-days-out order. -/
def sDb10 : Db := mkDb sOid sRow10

/-- C6: for every order whose parsed expiry date is more than 4 days after
the current time (the source's `days_until_expiry > 4` with
`timedelta.days` floor semantics), `run_renewal` returns
`(false, _, skipped)` and issues no UPDATE, leaving every stored field
unchanged. -/
theorem C6_skip_no_mutation (db : Db) (now : Int) (oid : Str) (row : OrderRow)
    (het_han : Int)
    (hne : oid.isEmpty = false)
    (hord : db.order oid = .ok (some row))
    (hhh : row.het_han = some het_han)
    (helig : so_ngay_con_lai het_han now > 4) :
    run_renewal db now oid = .ok (⟨false, none, .skipped⟩, none) :=
  run_renewal_skip db now oid row het_han hne hord hhh helig

/-- Witness for C6: the order expiring on day 10, seen at time 0, is
skipped with no write. -/
theorem C6_witness : run_renewal sDb10 0 sOid = .ok (⟨false, none, .skipped⟩, none) :=
  C6_skip_no_mutation sDb10 0 sOid sRow10 10
    (by decide) (by decide) (by decide) (by decide)

/-- Sample order whose stored import price is the text `5200`. -/
def c3Row : OrderRow := { sRow with gia_nhap := .txt "5200".toList }

/-- Database holding the `5200`-import order. -/
def c3Db : Db := mkDb sOid c3Row

/-- Counterexample to C3: the renewal engine writes import price 5000 for a
normalized import value of 5200 — `_round_to_thousands` rounded DOWN, so
`result ≥ v` fails at the renewal engine's import price. -/
theorem C3_counterexample :
    run_renewal c3Db 0 sOid =
      .ok (⟨true, some ⟨sOid, sRow.san_pham, [], [], 5, 35, none, 5000, 6000,
        unpaidStatus⟩, .renewal⟩,
        some ⟨sOid, 5, 30, 35, 5000, 6000, unpaidStatus, false⟩) ∧
    chuanHoaGiaVal c3Row.gia_nhap = 5200 ∧ (5000 : Int) < 5200 := by
  refine ⟨by decide, by decide, by decide⟩

/-- `_round_to_thousands` fixes every multiple of 1000 (so the renewal
engine's second rounding of the already rounded-up sale price is the
identity). -/
theorem round_to_thousands_multiple (w : Int) (h : w % 1000 = 0) :
    round_to_thousands w = w := by
  simp only [round_to_thousands]
  split_ifs <;> omega

/-- C3 amended: the add-order and extend-order helpers and the renewal
engine's sale price round UP to the nearest 1000 (result ≥ v, multiple of
1000, result − v < 1000, non-positive input → 0), but the renewal engine
feeds its import price through `_round_to_thousands`, which rounds to the
NEAREST multiple of 1000 (remainder ≥ 500 up, otherwise down), so
`result ≥ v` fails there for remainders 1..499. -/
theorem C3_rounding_rules (v : Int) (hv : 0 < v) :
    (v ≤ round_thousand v ∧ round_thousand v % 1000 = 0 ∧
      round_thousand v - v < 1000) ∧
    round_up_to_thousand v = round_thousand v ∧
    (v ≤ round_up_calc v ∧ round_up_calc v % 1000 = 0 ∧
      round_up_calc v - v < 1000) ∧
    round_to_thousands (round_up_calc v) = round_up_calc v ∧
    (round_to_thousands v % 1000 = 0 ∧
      (500 ≤ v % 1000 → round_to_thousands v = v + (1000 - v % 1000)) ∧
      (v % 1000 < 500 → round_to_thousands v = v - v % 1000)) ∧
    round_thousand 0 = 0 ∧ round_to_thousands 0 = 0 := by
  have hfd : ∀ a : Int, Int.fdiv a 1000 = a / 1000 := fun a =>
    Int.fdiv_eq_ediv a (by norm_num)
  have hup : round_up_calc v = (v + 999) / 1000 * 1000 := by
    simp only [round_up_calc, hfd]
  have hupmod : round_up_calc v % 1000 = 0 := by
    rw [hup]; exact Int.mul_emod_left _ _
  have hub1 : v ≤ round_up_calc v := by rw [hup]; omega
  have hub2 : round_up_calc v - v < 1000 := by rw [hup]; omega
  have hrt : round_thousand v = round_up_calc v := by
    simp only [round_thousand, round_up_calc, hfd, if_neg (by omega : ¬ v ≤ 0)]
  refine ⟨⟨?_, ?_, ?_⟩, ?_, ⟨hub1, hupmod, hub2⟩, ?_, ⟨?_, ?_, ?_⟩, ?_, ?_⟩
  · rw [hrt]; exact hub1
  · rw [hrt]; exact hupmod
  · rw [hrt]; exact hub2
  · simp only [round_up_to_thousand, round_thousand]
  · exact round_to_thousands_multiple _ hupmod
  · simp only [round_to_thousands]
    split_ifs <;> omega
  · intro h; simp only [round_to_thousands]; split_ifs <;> omega
  · intro h; simp only [round_to_thousands]; split_ifs <;> omega
  · simp [round_thousand]
  · simp [round_to_thousands]

/-- Witness for C3 amended at v = 5200. -/
theorem C3_witness :
    (5200 : Int) ≤ round_thousand 5200 ∧ round_thousand 5200 % 1000 = 0 ∧
      round_thousand 5200 - 5200 < 1000 :=
  (C3_rounding_rules 5200 (by decide)).1

/-- Promo-prefixed variant of the sample order code. -/
def c4Oid : Str := "MAVK7X9K2P1".toList

/-- Sample promo order with stored import price text `451400`. -/
def c4Row : OrderRow := { sRow with gia_nhap := .txt "451400".toList }

/-- Database holding the promo order. -/
def c4Db : Db := mkDb c4Oid c4Row

/-- Counterexample to C4: for the promo order with import value 451400 the
renewal engine writes sale price 452000 (import rounded UP) and import
price 451000 (import rounded to NEAREST), so the computed sale price equals
neither the import value nor the stored import price. -/
theorem C4_counterexample :
    run_renewal c4Db 0 c4Oid =
      .ok (⟨true, some ⟨c4Oid, sRow.san_pham, [], [], 5, 35, none, 451000, 452000,
        unpaidStatus⟩, .renewal⟩,
        some ⟨c4Oid, 5, 30, 35, 451000, 452000, unpaidStatus, false⟩) ∧
    chuanHoaGiaVal c4Row.gia_nhap = 451400 ∧
    (452000 : Int) ≠ 451400 ∧ (452000 : Int) ≠ 451000 := by
  refine ⟨by decide, by decide, by decide, by decide⟩

/-- C4 amended: a promo (`MAVK`) order code forces the sale price to
the import price ROUNDED UP to the nearest 1000 — equal to the import price
exactly only when that price is a positive multiple of 1000 — and this rule
wins over the collaborator and retail branches regardless of the highest
supply price and the multipliers.  In the renewal engine and the add-order
flow the override is unconditional; in the extend flow it runs only when a
product profile exists and the highest supply price is positive, in which
case the stored sale price equals the stored (rounded-up) import price. -/
theorem C4_promo_override :
    (∀ (oid : Str) (hp : Option ℚ) (c k : ℚ) (g : Int),
      pyStartsWith (strUpper oid) "MAVK".toList = true →
      calc_gia_ban oid hp c k g = round_up_calc g) ∧
    (∀ (db : AddDb) (ma : Str) (g : Int),
      pyStartsWith ma "MAVK".toList = true →
      chon_nguon_gia_ban db ma g = round_thousand g) ∧
    (∀ (r : ProductRecord) (np : Option Int) (high : Int) (ma : Str) (gn gb : Int),
      pyStartsWith (strUpper ma) "MAVK".toList = true → 0 < high →
      (extend_new_prices (some r) np high ma gn gb).2 =
        (extend_new_prices (some r) np high ma gn gb).1) := by
  refine ⟨?_, ?_, ?_⟩
  · intro oid hp c k g hk
    have hk2 : pyStartsWith (strUpper oid) (['M', 'A', 'V', 'K'] : Str) = true := hk
    simp [calc_gia_ban, calc_gia_ban_raw, hk2, pyTrunc_intCast]
  · intro db ma g hk
    simp only [chon_nguon_gia_ban]
    rcases h1 : db.highest_price with e | hp
    · simp [pyTrunc_intCast]
    · by_cases h2 : (0 : ℚ) < hp.getD 0
      · rcases h3 : db.percentages with e2 | pc
        · simp [h2, h3, pyTrunc_intCast]
        · rcases pc with _ | ⟨c0, k0⟩
          · simp [h2, h3, hk, pyTrunc_intCast]
          · simp only [h2, if_true, h3]
            split_ifs <;> simp [hk, pyTrunc_intCast]
      · simp [h2, hk, pyTrunc_intCast]
  · intro r np high ma gn gb hk hpos
    have hk2 : pyStartsWith (strUpper ma) (['M', 'A', 'V', 'K'] : Str) = true := hk
    have hC : pyStartsWith (strUpper ma) (['M', 'A', 'V', 'C'] : Str) = false :=
      pyStartsWith_excl _ _ _ (by decide) (by decide) hk
    have hL : pyStartsWith (strUpper ma) (['M', 'A', 'V', 'L'] : Str) = false :=
      pyStartsWith_excl _ _ _ (by decide) (by decide) hk
    simp [extend_new_prices, hpos, hC, hL, hk2]

/-- Witness for C4 amended: a concrete promo code with import 451400 gives
sale price 452000 in all three flows, overriding nontrivial multipliers. -/
theorem C4_witness :
    calc_gia_ban "MAVK7X9K2P1".toList (some 100000) 2 3 451400 = 452000 ∧
    chon_nguon_gia_ban ⟨.ok (some 100000), .ok (some (some 2, some 3))⟩
      "MAVK7X9K2P1".toList 451400 = 452000 ∧
    (extend_new_prices (some ⟨1, some 2, some 3⟩) none 100000
      "MAVK7X9K2P1".toList 451400 777).2 =
      (extend_new_prices (some ⟨1, some 2, some 3⟩) none 100000
        "MAVK7X9K2P1".toList 451400 777).1 := by
  refine ⟨?_, ?_, ?_⟩
  · rw [C4_promo_override.1 _ _ _ _ _ (by decide)]; decide
  · rw [C4_promo_override.2.1 _ _ _ (by decide)]; decide
  · exact C4_promo_override.2.2 _ _ _ _ _ _ (by decide) (by decide)

/-- C5: for every retail (`MAVL`) order code with a positive highest supply
price, the pre-rounding sale price computed by `_calc_gia_ban` is
`highest_supply_price * collaborator_multiplier * customer_multiplier`
(compounded), and `run_renewal`'s multiplier resolution turns a stored NULL
multiplier into 1.0. -/
theorem C5_retail_compounded (ma : Str) (h c k : ℚ) (g : Int)
    (hL : pyStartsWith (strUpper ma) "MAVL".toList = true) (hpos : 0 < h) :
    calc_gia_ban_raw ma (some h) c k g = (h * c) * k ∧
    (∀ i : Nat, resolveProduct (some ⟨i, none, none⟩) = (some i, 1, 1)) ∧
    (∀ (i : Nat) (kk : ℚ), resolveProduct (some ⟨i, none, some kk⟩) = (some i, 1, kk)) := by
  have hL2 : pyStartsWith (strUpper ma) (['M', 'A', 'V', 'L'] : Str) = true := hL
  have hC : pyStartsWith (strUpper ma) (['M', 'A', 'V', 'C'] : Str) = false :=
    pyStartsWith_excl _ _ _ (by decide) (by decide) hL
  have hK : pyStartsWith (strUpper ma) (['M', 'A', 'V', 'K'] : Str) = false :=
    pyStartsWith_excl _ _ _ (by decide) (by decide) hL
  refine ⟨?_, fun i => rfl, fun i kk => rfl⟩
  simp [calc_gia_ban_raw, hL2, hC, hK, hpos]

/-- Witness for C5 at the spec's compounding example: highest 100000,
multipliers 1.2 and 1.1, pre-rounding sale price 132000. -/
theorem C5_witness :
    calc_gia_ban_raw "MAVL7X9K2P1".toList (some 100000) (6 / 5) (11 / 10) 77777
      = 132000 := by
  rw [(C5_retail_compounded "MAVL7X9K2P1".toList 100000 (6 / 5) (11 / 10) 77777
    (by decide) (by norm_num)).1]
  norm_num

/-- Database whose product-record lookup raises. -/
def c7Db : Db := { mkDb sOid sRow with product_record := fun _ => .error () }

/-- Counterexample to C7: on an eligible order, an exception raised by the
product-record lookup inside `run_renewal`'s price-recompute step is NOT
caught — `run_renewal` propagates it to its caller instead of falling back
to `sale_price = import_price`. -/
theorem C7_counterexample : run_renewal c7Db 0 sOid = .error () := by decide

/-- C7 amended: the silent fallback to `sale_price = import_price` covers
the add-order pricing block, whose lookups run inside `try` — any exception
there degrades to the import price — and the arithmetic inside
`_calc_gia_ban`; but in the renewal engine the multiplier/price lookups run
OUTSIDE any `try`, so a database exception in them propagates out of
`run_renewal`. -/
theorem C7_fallback_scope :
    (∀ (db : AddDb) (ma : Str) (g : Int), db.highest_price = .error () →
      chon_nguon_gia_ban db ma g = round_thousand g) ∧
    (∀ (db : Db) (now : Int) (oid : Str) (row : OrderRow) (het_han : Int)
        (so_thang : Nat),
      oid.isEmpty = false → db.order oid = .ok (some row) →
      row.het_han = some het_han → so_ngay_con_lai het_han now ≤ 4 →
      search_duration (normalize_product_duration row.san_pham) = some so_thang →
      db.product_record row.san_pham = .error () →
      run_renewal db now oid = .error ()) := by
  constructor
  · intro db ma g herr
    simp [chon_nguon_gia_ban, herr, pyTrunc_intCast]
  · intro db now oid row het_han so_thang hne hord hhh helig hdur herr
    have helig2 : ¬ so_ngay_con_lai het_han now > 4 := by omega
    simp [run_renewal, hne, hord, hhh, helig2, hdur, herr]

/-- Witness for C7 amended: a concrete raising add-order lookup falls back
to the rounded import price, and the concrete raising renewal lookup
propagates. -/
theorem C7_witness :
    chon_nguon_gia_ban ⟨.error (), .ok none⟩ sOid 5200 = round_thousand 5200 ∧
    run_renewal c7Db 0 sOid = .error () :=
  ⟨C7_fallback_scope.1 ⟨.error (), .ok none⟩ sOid 5200 rfl,
   C7_fallback_scope.2 c7Db 0 sOid sRow 4 1 (by decide) (by decide) (by decide)
     (by decide) (by decide) (by decide)⟩

/-- Sample order whose product name defeats the claimed word boundary:
`--3m` is followed by the word characters `ax`. -/
def c8Row : OrderRow := { sRow with san_pham := "Netflix--3max".toList }

/-- Database holding the `--3max` order. -/
def c8Db : Db := mkDb sOid c8Row

/-- Counterexample to C8: the claim's word-boundary pattern does not match
`Netflix--3max`, so by the claim the renewal engine should fail with kind
error; the code's boundary-free regex nevertheless extracts N = 3 and the
renewal succeeds with a 90-day duration. -/
theorem C8_counterexample :
    spec_search_duration (normalize_product_duration c8Row.san_pham) = none ∧
    run_renewal c8Db 0 sOid =
      .ok (⟨true, some ⟨sOid, c8Row.san_pham, [], [], 5, 95, none, 50000, 50000,
        unpaidStatus⟩, .renewal⟩,
        some ⟨sOid, 5, 90, 95, 50000, 50000, unpaidStatus, false⟩) := by
  refine ⟨by decide, by decide⟩

/-- C8 amended: with the code's actual duration pattern
`--\s*(\d+)\s*m` (case-insensitive, Unicode dashes normalized first, NO
word boundary), the renewal engine converts the first matched month count N
to 365 days when N = 12 and N*30 days otherwise, and fails with kind error
(no write) when the pattern is absent. -/
theorem C8_duration_days (db : Db) (now : Int) (oid : Str) (row : OrderRow)
    (het_han : Int) (pr : Option ProductRecord) (sid : Option Nat)
    (sp : Option Int) (hp : Option ℚ)
    (hne : oid.isEmpty = false)
    (hord : db.order oid = .ok (some row))
    (hhh : row.het_han = some het_han)
    (helig : so_ngay_con_lai het_han now ≤ 4)
    (hpr : db.product_record row.san_pham = .ok pr)
    (hsid : get_source_id db row.nguon = .ok sid)
    (hsp : get_source_price db (resolveProduct pr).1 sid = .ok sp)
    (hhp : get_highest_price db (resolveProduct pr).1 = .ok hp)
    (hup : db.update_err = false) :
    run_renewal db now oid =
      match search_duration (normalize_product_duration row.san_pham) with
      | none => .ok (⟨false, none, .error⟩, none)
      | some so_thang =>
        .ok (⟨true, some ⟨oid, row.san_pham, row.thong_tin, row.slot, het_han + 1,
            het_han + 1 + (if so_thang = 12 then 365 else so_thang * 30 : Nat),
            row.nguon,
            round_to_thousands
              (match sp with | some p => p | none => chuanHoaGiaVal row.gia_nhap),
            round_to_thousands
              (calc_gia_ban oid hp (resolveProduct pr).2.1 (resolveProduct pr).2.2
                (match sp with | some p => p | none => chuanHoaGiaVal row.gia_nhap)),
            unpaidStatus⟩, .renewal⟩,
          some ⟨oid, het_han + 1, (if so_thang = 12 then 365 else so_thang * 30),
            het_han + 1 + (if so_thang = 12 then 365 else so_thang * 30 : Nat),
            round_to_thousands
              (match sp with | some p => p | none => chuanHoaGiaVal row.gia_nhap),
            round_to_thousands
              (calc_gia_ban oid hp (resolveProduct pr).2.1 (resolveProduct pr).2.2
                (match sp with | some p => p | none => chuanHoaGiaVal row.gia_nhap)),
            unpaidStatus, false⟩) := by
  rcases hdur : search_duration (normalize_product_duration row.san_pham) with _ | so_thang
  · have helig2 : ¬ so_ngay_con_lai het_han now > 4 := by omega
    simp [run_renewal, hne, hord, hhh, helig2, hdur]
  · exact run_renewal_success db now oid row het_han so_thang pr sid sp hp
      hne hord hhh (by omega) hdur hpr hsid hsp hhp hup

/-- Witness for C8 amended at the sample order (`Netflix--1m`, N = 1,
30 days). -/
theorem C8_witness :
    run_renewal sDb 0 sOid =
      match search_duration (normalize_product_duration sRow.san_pham) with
      | none => .ok (⟨false, none, .error⟩, none)
      | some so_thang =>
        .ok (⟨true, some ⟨sOid, sRow.san_pham, sRow.thong_tin, sRow.slot, 5,
            4 + 1 + (if so_thang = 12 then 365 else so_thang * 30 : Nat),
            sRow.nguon,
            round_to_thousands (chuanHoaGiaVal sRow.gia_nhap),
            round_to_thousands
              (calc_gia_ban sOid none 1 1 (chuanHoaGiaVal sRow.gia_nhap)),
            unpaidStatus⟩, .renewal⟩,
          some ⟨sOid, 5, (if so_thang = 12 then 365 else so_thang * 30),
            4 + 1 + (if so_thang = 12 then 365 else so_thang * 30 : Nat),
            round_to_thousands (chuanHoaGiaVal sRow.gia_nhap),
            round_to_thousands
              (calc_gia_ban sOid none 1 1 (chuanHoaGiaVal sRow.gia_nhap)),
            unpaidStatus, false⟩) := by
  have h := C8_duration_days sDb 0 sOid sRow 4 none none none none
    (by decide) (by decide) (by decide) (by decide) (by decide)
    (by decide) (by decide) (by decide) (by decide)
  simpa using h

/-- C9: `extract_ma_don` returns the sorted, deduplicated, upper-cased set
of substrings matching `MAV\w{5,}`: the spec's webhook scenario yields
exactly the one code, duplicates collapse, lower-case word characters after
the literal `MAV` are upper-cased, and too-short candidates are dropped. -/
theorem C9_extract_order_codes :
    extract_ma_don "NGUYEN VAN A MAVL7X9K2P1".toList = ["MAVL7X9K2P1".toList] ∧
    extract_ma_don "MAVB11111 MAVA22222 MAVB11111".toList =
      ["MAVA22222".toList, "MAVB11111".toList] ∧
    extract_ma_don "xx MAVabcde yy".toList = ["MAVABCDE".toList] ∧
    extract_ma_don "MAVX12".toList = [] := by
  refine ⟨by decide, by decide, by decide, by decide⟩

/-- Sample order whose stored import price is the text `4500`. -/
def c10Row : OrderRow := { sRow with gia_nhap := .txt "4500".toList }

/-- Database holding the `4500`-import order, with no supplier price. -/
def c10Db : Db := mkDb sOid c10Row

/-- C10: when no supplier-specific supply price exists, the renewal
engine's new import price (before its final rounding) is the stored import
price re-normalized by `chuan_hoa_gia`: digits are kept, a `k` multiplies
by 1000, a bare value below 5000 without a `.` separator is also multiplied
by 1000 (stored `4500` becomes 4500000), and unparseable text becomes 0. -/
theorem C10_chuan_hoa_gia_renormalization (db : Db) (now : Int) (oid : Str)
    (row : OrderRow) (het_han : Int) (so_thang : Nat) (pr : Option ProductRecord)
    (sid : Option Nat) (hp : Option ℚ)
    (hne : oid.isEmpty = false)
    (hord : db.order oid = .ok (some row))
    (hhh : row.het_han = some het_han)
    (helig : so_ngay_con_lai het_han now ≤ 4)
    (hdur : search_duration (normalize_product_duration row.san_pham) = some so_thang)
    (hpr : db.product_record row.san_pham = .ok pr)
    (hsid : get_source_id db row.nguon = .ok sid)
    (hsp : get_source_price db (resolveProduct pr).1 sid = .ok none)
    (hhp : get_highest_price db (resolveProduct pr).1 = .ok hp)
    (hup : db.update_err = false) :
    (∃ det, run_renewal db now oid = .ok (⟨true, some det, .renewal⟩,
      some ⟨oid, het_han + 1, (if so_thang = 12 then 365 else so_thang * 30),
        het_han + 1 + (if so_thang = 12 then 365 else so_thang * 30 : Nat),
        round_to_thousands (chuanHoaGiaVal row.gia_nhap),
        round_to_thousands
          (calc_gia_ban oid hp (resolveProduct pr).2.1 (resolveProduct pr).2.2
            (chuanHoaGiaVal row.gia_nhap)),
        unpaidStatus, false⟩)) ∧
    chuan_hoa_gia "4500".toList = 4500000 ∧
    chuan_hoa_gia "45k".toList = 45000 ∧
    chuan_hoa_gia "4.500".toList = 4500 ∧
    chuan_hoa_gia "1a2b3c".toList = 123000 ∧
    chuan_hoa_gia "abc".toList = 0 := by
  refine ⟨?_, by decide, by decide, by decide, by decide, by decide⟩
  exact ⟨_, run_renewal_success db now oid row het_han so_thang pr sid none hp
    hne hord hhh (by omega) hdur hpr hsid hsp hhp hup⟩

/-- Witness for C10: the sample order with stored import text `4500` is
renewed with written import price 4500000. -/
theorem C10_witness :
    (∃ det, run_renewal c10Db 0 sOid = .ok (⟨true, some det, .renewal⟩,
      some ⟨sOid, 4 + 1, 30, 4 + 1 + (30 : Nat),
        round_to_thousands (chuanHoaGiaVal c10Row.gia_nhap),
        round_to_thousands (calc_gia_ban sOid none 1 1 (chuanHoaGiaVal c10Row.gia_nhap)),
        unpaidStatus, false⟩)) ∧
    chuan_hoa_gia "4500".toList = 4500000 ∧
    chuan_hoa_gia "45k".toList = 45000 ∧
    chuan_hoa_gia "4.500".toList = 4500 ∧
    chuan_hoa_gia "1a2b3c".toList = 123000 ∧
    chuan_hoa_gia "abc".toList = 0 := by
  have h := C10_chuan_hoa_gia_renormalization c10Db 0 sOid c10Row 4 1 none none none
    (by decide) (by decide) (by decide) (by decide) (by decide)
    (by decide) (by decide) (by decide) (by decide) (by decide)
  simpa using h
